import Mathlib

/-!
Verification of the wardrobe planning application's core model against its
specification.  The Python source is shallowly embedded: floats are modelled
as exact rationals (`ℚ`), JSON dictionaries as Lean structures with
`Option`-typed fields for keys read via `dict.get` (`none` = key absent or
JSON null), and exceptions (`KeyError` from enum lookup, etc.) as
`Option`-valued functions.  `datetime.now()` and `uuid4()` are nondeterministic
in the source and are modelled as explicit `String` parameters threaded into
the functions that call them.
-/

namespace Wardrobe

/-! ## Geometry kernel (src/utils/geometry.py) -/

/-- Python's built-in one-argument `round`: round-half-to-even on the exact
rational value. -/
def pyRound (q : ℚ) : ℤ :=
  let n : ℤ := ⌊q⌋
  let frac : ℚ := q - n
  if frac < 1/2 then n
  else if 1/2 < frac then n + 1
  else if n % 2 = 0 then n else n + 1

/-- Function `snap_to_grid(value, grid_size)` from src/utils/geometry.py: identity for
`grid_size <= 0`, otherwise `round(value / grid_size) * grid_size`. -/
def snap_to_grid (value grid_size : ℚ) : ℚ :=
  if grid_size ≤ 0 then value
  else (pyRound (value / grid_size) : ℚ) * grid_size

/-- Function `calculate_scale_to_fit` from src/utils/geometry.py (`margin` is the last
argument, defaulting to `0.0` in the source). -/
def calculate_scale_to_fit (content_w content_h container_w container_h margin : ℚ) : ℚ :=
  if content_w ≤ 0 ∨ content_h ≤ 0 then 1
  else
    let available_w := container_w - 2 * margin
    let available_h := container_h - 2 * margin
    if available_w ≤ 0 ∨ available_h ≤ 0 then 1
    else
      let scale_x := available_w / content_w
      let scale_y := available_h / content_h
      min scale_x scale_y

/-! ## Depth offsets of the render surfaces -/

/-- Method `CanvasScene._get_frame_depth_offset` from src/views/canvas/canvas_scene.py:
`min(self.frame_depth * 0.12, 80)`. -/
def get_frame_depth_offset (frame_depth : ℚ) : ℚ :=
  min (frame_depth * (12/100)) 80

/-- Method `BaseItem._get_depth_offset` from src/views/items/base_item.py:
`min(depth * 0.15, 80)` where `depth` is the component's depth. -/
def get_depth_offset (depth : ℚ) : ℚ :=
  min (depth * (15/100)) 80

/-- Modelled from the spec: the reference function `depthOffset(depth, factor,
cap) = min(depth·factor, cap)` of spec §4.1, against which the two embedded
computations are compared (refinement claim). -/
def depthOffset (depth factor cap : ℚ) : ℚ :=
  min (depth * factor) cap

/-! ## Unit parsing (src/utils/units.py) -/

def MM_PER_INCH : ℚ := 254/10

def MM_PER_CM : ℚ := 10

/-- Function `inches_to_mm` from src/utils/units.py. -/
def inches_to_mm (inches : ℚ) : ℚ := inches * MM_PER_INCH

/-- Function `cm_to_mm` from src/utils/units.py. -/
def cm_to_mm (cm : ℚ) : ℚ := cm * MM_PER_CM

/-- Python `str.strip()` (ASCII whitespace model), on the character list. -/
def pyStrip (cs : List Char) : List Char :=
  ((cs.dropWhile Char.isWhitespace).reverse.dropWhile Char.isWhitespace).reverse

/-- Lower-case one ASCII character, as Python `str.lower()` does. -/
def pyLowerChar (c : Char) : Char :=
  if 'A' ≤ c ∧ c ≤ 'Z' then Char.ofNat (c.toNat + 32) else c

/-- Python `str.lower()` (ASCII model), on the character list. -/
def pyLower (cs : List Char) : List Char := cs.map pyLowerChar

/-- Numeric value of a digit list read in base 10. -/
def natOfDigits (cs : List Char) : ℕ :=
  cs.foldl (fun a c => a * 10 + (c.toNat - 48)) 0

/-- Python `float(s)` on an unsigned decimal literal (digits with at most one
dot, at least one digit overall); `none` models `ValueError`.  Exotic float
syntax (exponents, `inf`, `nan`, underscores) is outside the inputs the spec
exercises and is not modelled. -/
def pyFloatUnsigned (cs : List Char) : Option ℚ :=
  match cs.splitOn '.' with
  | [a] =>
      if a ≠ [] ∧ a.all Char.isDigit then some (natOfDigits a) else none
  | [a, b] =>
      if (a ≠ [] ∨ b ≠ []) ∧ a.all Char.isDigit ∧ b.all Char.isDigit then
        some ((natOfDigits a : ℚ) + (natOfDigits b : ℚ) / 10 ^ b.length)
      else none
  | _ => none

/-- Python `float(s)`: optional sign then an unsigned decimal literal. -/
def pyFloat (cs : List Char) : Option ℚ :=
  match cs with
  | '-' :: rest => (pyFloatUnsigned rest).map Neg.neg
  | '+' :: rest => pyFloatUnsigned rest
  | _ => pyFloatUnsigned cs

/-- Function `parse_dimension` from src/utils/units.py: strip, lower-case, dispatch on
the suffix (`mm`, `cm`, `"`, `in`), convert to millimetres; any `ValueError`
from `float` yields `(0.0, False)`. -/
def parse_dimension (s : String) : ℚ × Bool :=
  let cs := pyLower (pyStrip s.data)
  if List.isSuffixOf ['m', 'm'] cs then
    match pyFloat (cs.take (cs.length - 2)) with
    | some v => (v, true)
    | none => (0, false)
  else if List.isSuffixOf ['c', 'm'] cs then
    match pyFloat (cs.take (cs.length - 2)) with
    | some v => (cm_to_mm v, true)
    | none => (0, false)
  else if List.isSuffixOf ['"'] cs ∨ List.isSuffixOf ['i', 'n'] cs then
    let suffix_len : ℕ := if List.isSuffixOf ['"'] cs then 1 else 2
    match pyFloat (cs.take (cs.length - suffix_len)) with
    | some v => (inches_to_mm v, true)
    | none => (0, false)
  else
    match pyFloat cs with
    | some v => (v, true)
    | none => (0, false)

/-! ## Enums (src/models/enums.py) -/

inductive ComponentType
  | FRAME
  | DRAWER_UNIT
  | HANGING_SPACE
  | SHELF
  | OVERHEAD
  | DIVIDER
deriving DecidableEq

/-- Field `member.name` of the `ComponentType` enum. -/
def ComponentType.name : ComponentType → String
  | .FRAME => "FRAME"
  | .DRAWER_UNIT => "DRAWER_UNIT"
  | .HANGING_SPACE => "HANGING_SPACE"
  | .SHELF => "SHELF"
  | .OVERHEAD => "OVERHEAD"
  | .DIVIDER => "DIVIDER"

/-- Lookup `ComponentType[s]`: enum lookup by member name; `none` models `KeyError`. -/
def componentTypeOfName (s : String) : Option ComponentType :=
  match s with
  | "FRAME" => some .FRAME
  | "DRAWER_UNIT" => some .DRAWER_UNIT
  | "HANGING_SPACE" => some .HANGING_SPACE
  | "SHELF" => some .SHELF
  | "OVERHEAD" => some .OVERHEAD
  | "DIVIDER" => some .DIVIDER
  | _ => none

inductive UnitSystem
  | METRIC
  | IMPERIAL
deriving DecidableEq

/-- Field `member.name` of the `UnitSystem` enum. -/
def UnitSystem.name : UnitSystem → String
  | .METRIC => "METRIC"
  | .IMPERIAL => "IMPERIAL"

/-- Lookup `UnitSystem[s]`: enum lookup by member name; `none` models `KeyError`. -/
def unitSystemOfName (s : String) : Option UnitSystem :=
  match s with
  | "METRIC" => some .METRIC
  | "IMPERIAL" => some .IMPERIAL
  | _ => none

/-! ## Component model (src/models/component.py and the variant modules) -/

@[ext]
structure Dimensions where
  width : ℚ
  height : ℚ
  depth : ℚ
deriving DecidableEq

@[ext]
structure Position where
  x : ℚ
  y : ℚ
deriving DecidableEq

/-- The base fields shared by every component class, in the dataclass's field
order (`component_type, name, dimensions, position, id, color, label, notes,
locked`). -/
@[ext]
structure ComponentBase where
  component_type : ComponentType
  name : String
  dimensions : Dimensions
  position : Position
  id : String
  color : Option String := none
  label : Option String := none
  notes : Option String := none
  locked : Bool := false
deriving DecidableEq

/-- A live component object: an instance of the base class `Component` or of
one of its four dataclass subclasses.  The `component_type` tag is an ordinary
stored field of the base record, exactly as in the source (the factories set
it to match the class; nothing in the type forces that). -/
inductive Component
  | base (b : ComponentBase)
  | DrawerUnit (b : ComponentBase) (drawer_count : ℤ) (drawer_heights : List ℚ)
      (handle_style : String)
  | HangingSpace (b : ComponentBase) (rail_height : ℚ) (rail_type : String)
      (clothing_type : String)
  | Shelf (b : ComponentBase) (adjustable : Bool) (shelf_thickness : ℚ)
      (load_capacity : ℚ)
  | Overhead (b : ComponentBase) (door_type : String) (door_count : ℤ)
      (has_shelf : Bool)
deriving DecidableEq

/-- The shared base-field record of a component of any class. -/
def Component.fields : Component → ComponentBase
  | .base b => b
  | .DrawerUnit b _ _ _ => b
  | .HangingSpace b _ _ _ => b
  | .Shelf b _ _ _ => b
  | .Overhead b _ _ _ => b

/-- Attribute `component.id`. -/
def Component.id (c : Component) : String := c.fields.id

/-- Attribute `drawer_heights` of a `DrawerUnit` instance (`[]` on any other class). -/
def Component.drawer_heights : Component → List ℚ
  | .DrawerUnit _ _ hs _ => hs
  | _ => []

/-- Dataclass `__eq__` on the base fields: the tuple of the nine fields,
compared in field order. -/
def baseFieldsEq (a b : ComponentBase) : Bool :=
  decide (a.component_type = b.component_type) && decide (a.name = b.name) &&
  decide (a.dimensions = b.dimensions) && decide (a.position = b.position) &&
  decide (a.id = b.id) && decide (a.color = b.color) && decide (a.label = b.label) &&
  decide (a.notes = b.notes) && decide (a.locked = b.locked)

/-- Python `==` between component objects: dataclass-generated `__eq__`,
which requires the two operands to be instances of the same class and
compares the tuple of all dataclass fields (base fields plus the subclass's
own); comparison across different classes yields `False`. -/
def componentEq : Component → Component → Bool
  | .base a, .base b => baseFieldsEq a b
  | .DrawerUnit a c1 h1 s1, .DrawerUnit b c2 h2 s2 =>
      baseFieldsEq a b && decide (c1 = c2) && decide (h1 = h2) && decide (s1 = s2)
  | .HangingSpace a r1 t1 c1, .HangingSpace b r2 t2 c2 =>
      baseFieldsEq a b && decide (r1 = r2) && decide (t1 = t2) && decide (c1 = c2)
  | .Shelf a j1 t1 l1, .Shelf b j2 t2 l2 =>
      baseFieldsEq a b && decide (j1 = j2) && decide (t1 = t2) && decide (l1 = l2)
  | .Overhead a d1 c1 s1, .Overhead b d2 c2 s2 =>
      baseFieldsEq a b && decide (d1 = d2) && decide (c1 = c2) && decide (s1 = s2)
  | _, _ => false

/-- Method `DrawerUnit.__post_init__`: if `drawer_heights` is empty (falsy) and
`drawer_count > 0`, fill it with `drawer_count` copies of
`dimensions.height / drawer_count`.  Runs on every `DrawerUnit` construction. -/
def drawerPostInit (b : ComponentBase) (drawer_count : ℤ) (drawer_heights : List ℚ)
    (handle_style : String) : Component :=
  if drawer_heights = [] ∧ 0 < drawer_count then
    Component.DrawerUnit b drawer_count
      (List.replicate drawer_count.toNat (b.dimensions.height / drawer_count)) handle_style
  else
    Component.DrawerUnit b drawer_count drawer_heights handle_style

/-- Method `DrawerUnit.create` from src/models/drawer.py.  `fresh` models the
`str(uuid4())` drawn when no `id` is passed; the source's keyword defaults
(`width=600`, `height=800`, `depth=500`, `drawer_count=3`,
`handle_style="bar"`, …) are supplied by callers here.  Dataclass
construction runs `__post_init__`. -/
def DrawerUnit.create (fresh name : String) (width height depth x y : ℚ)
    (drawer_count : ℤ) (drawer_heights : Option (List ℚ)) (handle_style : String)
    (id : Option String) (color label notes : Option String) (locked : Bool) :
    Component :=
  drawerPostInit
    { component_type := .DRAWER_UNIT, name := name,
      dimensions := ⟨width, height, depth⟩, position := ⟨x, y⟩,
      id := id.getD fresh, color := color, label := label, notes := notes,
      locked := locked }
    drawer_count (drawer_heights.getD []) handle_style

/-! ## Serialized component records (`to_dict` / `from_dict`) -/

/-- The dictionary produced by `Component.to_dict` and consumed by the
`from_dict` class methods.  Keys read via `dict.get` are `Option`-typed;
`none` means the key is absent (or holds JSON null, indistinguishable to
`dict.get`).  Variant-specific keys are only ever written by the matching
subclass's `to_dict`. -/
structure ComponentRecord where
  id : String
  component_type : Option String := none
  name : String
  dimensions : Dimensions
  position : Position
  color : Option String := none
  label : Option String := none
  notes : Option String := none
  locked : Option Bool := none
  drawer_count : Option ℤ := none
  drawer_heights : Option (List ℚ) := none
  handle_style : Option String := none
  rail_height : Option ℚ := none
  rail_type : Option String := none
  clothing_type : Option String := none
  adjustable : Option Bool := none
  shelf_thickness : Option ℚ := none
  load_capacity : Option ℚ := none
  door_type : Option String := none
  door_count : Option ℤ := none
  has_shelf : Option Bool := none
deriving DecidableEq

/-- The base part of `Component.to_dict`. -/
def ComponentBase.toDict (b : ComponentBase) : ComponentRecord :=
  { id := b.id, component_type := some b.component_type.name, name := b.name,
    dimensions := b.dimensions, position := b.position, color := b.color,
    label := b.label, notes := b.notes, locked := some b.locked }

/-- Method `to_dict` of each component class: the base record, updated with the
subclass's own keys (`data.update({...})`). -/
def Component.to_dict : Component → ComponentRecord
  | .base b => b.toDict
  | .DrawerUnit b cnt hs style =>
      { b.toDict with
          drawer_count := some cnt, drawer_heights := some hs,
          handle_style := some style }
  | .HangingSpace b rh rt ct =>
      { b.toDict with
          rail_height := some rh, rail_type := some rt,
          clothing_type := some ct }
  | .Shelf b adj th cap =>
      { b.toDict with
          adjustable := some adj, shelf_thickness := some th,
          load_capacity := some cap }
  | .Overhead b dt dc hs =>
      { b.toDict with
          door_type := some dt, door_count := some dc,
          has_shelf := some hs }

/-- The base-field reconstruction shared by every `from_dict` class method:
`data["component_type"]` must be present (else `KeyError`) and must name a
`ComponentType` member (else `ComponentType[...]` raises `KeyError`); `color`,
`label`, `notes` default to `None` and `locked` to `False` via `dict.get`. -/
def readBase (r : ComponentRecord) : Option ComponentBase :=
  match r.component_type with
  | none => none
  | some s =>
    match componentTypeOfName s with
    | none => none
    | some t =>
        some { component_type := t, name := r.name, dimensions := r.dimensions,
               position := r.position, id := r.id, color := r.color,
               label := r.label, notes := r.notes, locked := r.locked.getD false }

/-- Method `Component.from_dict` (the base class). -/
def Component.from_dict (r : ComponentRecord) : Option Component :=
  (readBase r).map .base

/-- Method `DrawerUnit.from_dict` (construction runs `__post_init__`). -/
def DrawerUnit.from_dict (r : ComponentRecord) : Option Component :=
  (readBase r).map fun b =>
    drawerPostInit b (r.drawer_count.getD 3) (r.drawer_heights.getD [])
      (r.handle_style.getD ("bar"))

/-- Method `HangingSpace.from_dict`. -/
def HangingSpace.from_dict (r : ComponentRecord) : Option Component :=
  (readBase r).map fun b =>
    Component.HangingSpace b (r.rail_height.getD 1700) (r.rail_type.getD ("single"))
      (r.clothing_type.getD ("full_length"))

/-- Method `Shelf.from_dict`. -/
def Shelf.from_dict (r : ComponentRecord) : Option Component :=
  (readBase r).map fun b =>
    Component.Shelf b (r.adjustable.getD true) (r.shelf_thickness.getD 18)
      (r.load_capacity.getD 30)

/-- Method `Overhead.from_dict`. -/
def Overhead.from_dict (r : ComponentRecord) : Option Component :=
  (readBase r).map fun b =>
    Component.Overhead b (r.door_type.getD ("hinged")) (r.door_count.getD 2)
      (r.has_shelf.getD true)

/-- The per-entry dispatch inside `WardrobeProject.from_dict`:
`comp_type = comp_data.get("component_type", "SHELF")`;
`comp_class = type_map.get(comp_type, Component)`;
`comp_class.from_dict(comp_data)`. -/
def componentFromDict (r : ComponentRecord) : Option Component :=
  match r.component_type.getD ("SHELF") with
  | "DRAWER_UNIT" => DrawerUnit.from_dict r
  | "HANGING_SPACE" => HangingSpace.from_dict r
  | "SHELF" => Shelf.from_dict r
  | "OVERHEAD" => Overhead.from_dict r
  | _ => Component.from_dict r

/-! ## Frame, metadata, project (src/models/project.py) -/

@[ext]
structure WardrobeFrame where
  width : ℚ := 2400
  height : ℚ := 2400
  depth : ℚ := 600
  panel_thickness : ℚ := 18
  top_clearance : ℚ := 50
  base_height : ℚ := 100
deriving DecidableEq

/-- The dictionary shape of `WardrobeFrame.to_dict` / `from_dict`
(`from_dict` is `cls(**data)`, so absent keys fall back to field defaults). -/
structure FrameRecord where
  width : Option ℚ := none
  height : Option ℚ := none
  depth : Option ℚ := none
  panel_thickness : Option ℚ := none
  top_clearance : Option ℚ := none
  base_height : Option ℚ := none
deriving DecidableEq

def WardrobeFrame.to_dict (f : WardrobeFrame) : FrameRecord :=
  { width := some f.width, height := some f.height, depth := some f.depth,
    panel_thickness := some f.panel_thickness, top_clearance := some f.top_clearance,
    base_height := some f.base_height }

def WardrobeFrame.from_dict (r : FrameRecord) : WardrobeFrame :=
  { width := r.width.getD 2400, height := r.height.getD 2400,
    depth := r.depth.getD 600, panel_thickness := r.panel_thickness.getD 18,
    top_clearance := r.top_clearance.getD 50, base_height := r.base_height.getD 100 }

@[ext]
structure ProjectMetadata where
  project_name : String := "Untitled Wardrobe"
  client_name : String := ""
  client_address : String := ""
  client_phone : String := ""
  notes : String := ""
  created_date : String
  modified_date : String
deriving DecidableEq

/-- The dictionary shape of `ProjectMetadata.to_dict` / `from_dict`
(`from_dict` is `cls(**data)`; every field has a default, the date fields
default to `datetime.now().isoformat()`, passed here as `now`). -/
structure MetadataRecord where
  project_name : Option String := none
  client_name : Option String := none
  client_address : Option String := none
  client_phone : Option String := none
  notes : Option String := none
  created_date : Option String := none
  modified_date : Option String := none
deriving DecidableEq

def ProjectMetadata.to_dict (m : ProjectMetadata) : MetadataRecord :=
  { project_name := some m.project_name, client_name := some m.client_name,
    client_address := some m.client_address, client_phone := some m.client_phone,
    notes := some m.notes, created_date := some m.created_date,
    modified_date := some m.modified_date }

def ProjectMetadata.from_dict (now : String) (r : MetadataRecord) : ProjectMetadata :=
  { project_name := r.project_name.getD ("Untitled Wardrobe"),
    client_name := r.client_name.getD (""), client_address := r.client_address.getD (""),
    client_phone := r.client_phone.getD (""), notes := r.notes.getD (""),
    created_date := r.created_date.getD now, modified_date := r.modified_date.getD now }

/-- The aggregate root.  `scroll_position` is a Python tuple of floats of any
length (`tuple(view_state.get("scroll_position", [0, 0]))`), modelled as a
list. -/
@[ext]
structure WardrobeProject where
  version : String := "1.0"
  metadata : ProjectMetadata
  unit_system : UnitSystem := .METRIC
  frame : WardrobeFrame := {}
  components : List Component := []
  zoom_level : ℚ := 1
  scroll_position : List ℚ := [0, 0]
deriving DecidableEq

/-- Dictionary shape of the `view_state` sub-dictionary. -/
structure ViewStateRecord where
  zoom_level : Option ℚ := none
  scroll_position : Option (List ℚ) := none
deriving DecidableEq

/-- The top-level project document. -/
structure ProjectRecord where
  version : Option String := none
  metadata : Option MetadataRecord := none
  unit_system : Option String := none
  frame : Option FrameRecord := none
  components : Option (List ComponentRecord) := none
  view_state : Option ViewStateRecord := none
deriving DecidableEq

/-- Method `WardrobeProject.to_dict`. -/
def WardrobeProject.to_dict (p : WardrobeProject) : ProjectRecord :=
  { version := some p.version, metadata := some p.metadata.to_dict,
    unit_system := some p.unit_system.name, frame := some p.frame.to_dict,
    components := some (p.components.map Component.to_dict),
    view_state := some { zoom_level := some p.zoom_level,
                         scroll_position := some p.scroll_position } }

/-- Method `WardrobeProject.from_dict`: each entry of `data.get("components", [])` is
deserialized through the type-map dispatch; `UnitSystem[...]` lookup and
per-entry reconstruction may raise `KeyError` (`none`), which the caller
(`FileService.load_project`) catches. -/
def WardrobeProject.from_dict (now : String) (d : ProjectRecord) :
    Option WardrobeProject := do
  let comps ← (d.components.getD []).mapM componentFromDict
  let us ← unitSystemOfName (d.unit_system.getD ("METRIC"))
  let vs := d.view_state.getD {}
  pure { version := d.version.getD ("1.0"),
         metadata := ProjectMetadata.from_dict now (d.metadata.getD {}),
         unit_system := us,
         frame := WardrobeFrame.from_dict (d.frame.getD {}),
         components := comps,
         zoom_level := vs.zoom_level.getD 1,
         scroll_position := vs.scroll_position.getD [0, 0] }

/-- First match of `component_id` in the list together with the remaining
elements (the `enumerate`/`pop(i)` loop of `remove_component`). -/
def removeFirstById (component_id : String) : List Component →
    Option (Component × List Component)
  | [] => none
  | c :: rest =>
      if c.id = component_id then some (c, rest)
      else (removeFirstById component_id rest).map fun p => (p.1, c :: p.2)

/-- Method `WardrobeProject.remove_component`: removes the first component with the
given id and stamps `modified_date` (with `now`, modelling
`datetime.now().isoformat()`); returns `None` and leaves the project untouched
when no component matches. -/
def WardrobeProject.remove_component (now : String) (p : WardrobeProject)
    (component_id : String) : Option Component × WardrobeProject :=
  match removeFirstById component_id p.components with
  | some (c, rest) =>
      (some c,
       { p with
           components := rest,
           metadata := { p.metadata with modified_date := now } })
  | none => (none, p)

/-! ## File service (src/services/file_service.py) -/

def SUPPORTED_VERSIONS : List String := ["1.0"]

/-- Method `FileService.load_project`, after the file has been read and JSON-parsed
into `data` (file-not-found and `json.JSONDecodeError` happen before this
point; the embedding starts at the version check).  `KeyError` escaping
`WardrobeProject.from_dict` is caught and reported as a missing-field failure.
The function constructs a fresh project and touches no existing one. -/
def load_project (now : String) (data : ProjectRecord) :
    Option WardrobeProject × String :=
  let version := data.version.getD ("unknown")
  if version ∈ SUPPORTED_VERSIONS then
    match WardrobeProject.from_dict now data with
    | some p => (some p, "Project loaded")
    | none => (none, "Missing required field")
  else
    (none, "Unsupported file version: " ++ version)

/-! ## Well-formedness of live objects

The serializer's round trip depends on two facts that every object created
through the code's own constructors enjoys: the `component_type` tag matches
the class (the factories and every `from_dict` establish it), and a
`DrawerUnit` is a fixpoint of `__post_init__` (which runs at construction:
its heights are non-empty whenever its count is positive). -/

/-- The tag stored in the base fields corresponds to the class, as every
factory and `from_dict` sets it; a base-class instance carries one of the two
tags that have no subclass. -/
def Component.tagConsistent : Component → Prop
  | .base b => b.component_type = .FRAME ∨ b.component_type = .DIVIDER
  | .DrawerUnit b _ _ _ => b.component_type = .DRAWER_UNIT
  | .HangingSpace b _ _ _ => b.component_type = .HANGING_SPACE
  | .Shelf b _ _ _ => b.component_type = .SHELF
  | .Overhead b _ _ _ => b.component_type = .OVERHEAD

/-- A `DrawerUnit` as `__post_init__` leaves it: heights non-empty whenever
the count is positive (trivially true for the other classes). -/
def Component.postInitStable : Component → Prop
  | .DrawerUnit _ cnt hs _ => hs ≠ [] ∨ cnt ≤ 0
  | _ => True

/-- Every component of the project is a value the code's own constructors can
produce. -/
def WardrobeProject.WellFormed (p : WardrobeProject) : Prop :=
  ∀ c ∈ p.components, c.tagConsistent ∧ c.postInitStable

/-! ## Concrete objects used as witnesses and counterexamples -/

def sampleBase : ComponentBase :=
  { component_type := .FRAME, name := "panel", dimensions := ⟨600, 18, 500⟩,
    position := ⟨0, 0⟩, id := "cid-0", color := some ("#FFFFFF"),
    label := none, notes := none, locked := false }

def sampleDrawer : Component :=
  Component.DrawerUnit
    { component_type := .DRAWER_UNIT, name := "drawers", dimensions := ⟨600, 800, 500⟩,
      position := ⟨0, 0⟩, id := "cid-1", color := some ("#8B7355"),
      label := some ("D"), notes := none, locked := false }
    4 [200, 200, 200, 200] "bar"

def sampleHanging : Component :=
  Component.HangingSpace
    { component_type := .HANGING_SPACE, name := "rail", dimensions := ⟨800, 1800, 580⟩,
      position := ⟨600, 0⟩, id := "cid-2", color := none, label := none,
      notes := some ("long coats"), locked := true }
    1700 ("single") "full_length"

def sampleShelf : Component :=
  Component.Shelf
    { component_type := .SHELF, name := "shelf", dimensions := ⟨800, 18, 500⟩,
      position := ⟨600, 1800⟩, id := "cid-3", color := none, label := none,
      notes := none, locked := false }
    true 18 30

def sampleOverhead : Component :=
  Component.Overhead
    { component_type := .OVERHEAD, name := "cabinet", dimensions := ⟨800, 400, 580⟩,
      position := ⟨0, 2000⟩, id := "cid-4", color := none, label := none,
      notes := none, locked := false }
    "hinged" 2 true

def sampleProject : WardrobeProject :=
  { version := "1.0",
    metadata := { project_name := "Master bedroom", client_name := "J. Doe",
                  client_address := "1 High St", client_phone := "555",
                  notes := "", created_date := "2026-01-01T00:00:00",
                  modified_date := "2026-01-02T00:00:00" },
    unit_system := .IMPERIAL,
    frame := { width := 2400, height := 2400, depth := 600, panel_thickness := 18,
               top_clearance := 50, base_height := 100 },
    components := [Component.base sampleBase, sampleDrawer, sampleHanging,
                   sampleShelf, sampleOverhead],
    zoom_level := 3/2,
    scroll_position := [120, -40] }

def widgetRecord : ComponentRecord :=
  { id := "cid-9", component_type := some ("WIDGET"), name := "mystery",
    dimensions := ⟨100, 100, 100⟩, position := ⟨0, 0⟩, locked := some false }

def shelfRecord : ComponentRecord :=
  { id := "cid-8", component_type := some ("SHELF"), name := "shelf",
    dimensions := ⟨800, 18, 500⟩, position := ⟨0, 0⟩, locked := some false }

def dividerRecord : ComponentRecord :=
  { id := "cid-7", component_type := some ("DIVIDER"), name := "divider",
    dimensions := ⟨18, 1000, 500⟩, position := ⟨0, 0⟩, locked := some true,
    drawer_count := some 2, drawer_heights := some [100, 100] }

/-- A version-1.0 document holding one well-formed entry and one entry with an
unknown `component_type` discriminator. -/
def widgetDoc : ProjectRecord :=
  { version := some ("1.0"), unit_system := some ("METRIC"),
    components := some [shelfRecord, widgetRecord] }

/-- A document whose version field is `"0.9"`. -/
def oldVersionDoc : ProjectRecord :=
  { version := some ("0.9"), unit_system := some ("METRIC"), components := some [] }

def c9Left : Component :=
  Component.base
    { component_type := .DIVIDER, name := "left", dimensions := ⟨18, 1000, 500⟩,
      position := ⟨0, 0⟩, id := "same-id", color := none, label := none,
      notes := none, locked := false }

def c9Right : Component :=
  Component.base
    { component_type := .DIVIDER, name := "right", dimensions := ⟨18, 1000, 500⟩,
      position := ⟨0, 0⟩, id := "same-id", color := none, label := none,
      notes := none, locked := false }

/-! ## Helper lemmas -/

theorem pyRound_intCast (n : ℤ) : pyRound (n : ℚ) = n := by
  simp [pyRound]

theorem parse_dimension_shape (s : String) :
    (∃ v, parse_dimension s = (v, true)) ∨ parse_dimension s = (0, false) := by
  simp only [parse_dimension]
  generalize pyLower (pyStrip s.data) = cs
  by_cases h1 : List.isSuffixOf ['m', 'm'] cs = true
  · simp only [h1, if_true]
    rcases hv : pyFloat (cs.take (cs.length - 2)) with _ | v <;> simp [hv]
  · simp only [h1, if_false]
    by_cases h2 : List.isSuffixOf ['c', 'm'] cs = true
    · simp only [h2, if_true]
      rcases hv : pyFloat (cs.take (cs.length - 2)) with _ | v <;> simp [hv]
    · simp only [h2, if_false]
      by_cases h3 : List.isSuffixOf ['"'] cs = true ∨ List.isSuffixOf ['i', 'n'] cs = true
      · simp only [if_pos h3]
        rcases hv : pyFloat (cs.take (cs.length - (if List.isSuffixOf ['"'] cs = true then 1 else 2))) with _ | v <;>
          simp [hv]
      · simp only [if_neg h3]
        rcases hv : pyFloat cs with _ | v <;> simp [hv]

theorem component_roundtrip (c : Component) (h1 : c.tagConsistent)
    (h2 : c.postInitStable) : componentFromDict c.to_dict = some c := by
  cases c with
  | base b =>
      obtain ⟨tag, nm, dims, pos, cid, col, lab, nts, lk⟩ := b
      rcases h1 with h | h <;> (cases h; rfl)
  | DrawerUnit b cnt hs style =>
      obtain ⟨tag, nm, dims, pos, cid, col, lab, nts, lk⟩ := b
      cases h1
      simp only [Component.to_dict, ComponentBase.toDict, componentFromDict,
        DrawerUnit.from_dict, readBase, componentTypeOfName, ComponentType.name,
        Option.getD_some, Option.map_some', drawerPostInit]
      rw [if_neg]
      simp only [Component.postInitStable] at h2
      intro hcon
      rcases h2 with h | h
      · exact h hcon.1
      · omega
  | HangingSpace b rh rt ct =>
      obtain ⟨tag, nm, dims, pos, cid, col, lab, nts, lk⟩ := b
      cases h1; rfl
  | Shelf b adj th cap =>
      obtain ⟨tag, nm, dims, pos, cid, col, lab, nts, lk⟩ := b
      cases h1; rfl
  | Overhead b dt dc hsh =>
      obtain ⟨tag, nm, dims, pos, cid, col, lab, nts, lk⟩ := b
      cases h1; rfl

theorem mapM_componentFromDict_roundtrip (l : List Component)
    (h : ∀ c ∈ l, c.tagConsistent ∧ c.postInitStable) :
    (l.map Component.to_dict).mapM componentFromDict = some l := by
  induction l with
  | nil => rfl
  | cons c rest ih =>
      have hc := h c (List.mem_cons_self c rest)
      have hr : ∀ x ∈ rest, x.tagConsistent ∧ x.postInitStable :=
        fun x hx => h x (List.mem_cons_of_mem c hx)
      rw [List.map_cons, List.mapM_cons, component_roundtrip c hc.1 hc.2, ih hr]
      rfl

theorem mapM_componentFromDict_none (l : List ComponentRecord) (r : ComponentRecord)
    (hr : r ∈ l) (hn : componentFromDict r = none) :
    l.mapM componentFromDict = none := by
  induction l with
  | nil => cases hr
  | cons a rest ih =>
      rcases List.mem_cons.mp hr with rfl | hmem
      · rw [List.mapM_cons, hn]; rfl
      · rcases ha : componentFromDict a with _ | c
        · rw [List.mapM_cons, ha]; rfl
        · rw [List.mapM_cons, ha, ih hmem]; rfl

theorem removeFirstById_none (cid : String) (l : List Component)
    (h : ∀ c ∈ l, c.id ≠ cid) : removeFirstById cid l = none := by
  induction l with
  | nil => rfl
  | cons c rest ih =>
      simp only [removeFirstById]
      rw [if_neg (h c (List.mem_cons_self c rest))]
      rw [ih fun x hx => h x (List.mem_cons_of_mem c hx)]
      rfl

theorem componentTypeOfName_inv (s : String) (t : ComponentType)
    (h : componentTypeOfName s = some t) : s = t.name := by
  unfold componentTypeOfName at h
  split at h <;> cases h <;> rfl

theorem drawerPostInit_stable (b : ComponentBase) (cnt : ℤ) (hs : List ℚ)
    (style : String) : (drawerPostInit b cnt hs style).postInitStable := by
  unfold drawerPostInit
  split
  · rename_i hcond
    simp only [Component.postInitStable]
    left
    have hn : cnt.toNat ≠ 0 := by omega
    simp [hn]
  · rename_i hcond
    simp only [Component.postInitStable]
    by_cases hh : hs = []
    · right
      have := not_and.mp hcond hh
      omega
    · left
      exact hh

theorem componentFromDict_none_of_unknown (r : ComponentRecord) (s : String)
    (hs : r.component_type = some s) (hct : componentTypeOfName s = none) :
    componentFromDict r = none := by
  have hb : readBase r = none := by simp only [readBase, hs, hct]
  simp only [componentFromDict, hs, Option.getD_some]
  split <;>
    simp [DrawerUnit.from_dict, HangingSpace.from_dict, Shelf.from_dict,
      Overhead.from_dict, Component.from_dict, hb]

/-- Every component the deserializer produces is well formed: its stored tag
matches its class and it is a `__post_init__` fixpoint.  This is the invariant
under which the round trip below is stated (the factories establish the same
invariant at creation time). -/
theorem componentFromDict_wellFormed (r : ComponentRecord) (c : Component)
    (h : componentFromDict r = some c) : c.tagConsistent ∧ c.postInitStable := by
  rcases hr : r.component_type with _ | s
  · simp only [componentFromDict, hr, Option.getD_none, Shelf.from_dict, readBase,
      Option.map_none'] at h
    cases h
  · rcases ht : componentTypeOfName s with _ | t
    · rw [componentFromDict_none_of_unknown r s hr ht] at h
      cases h
    · have hsv := componentTypeOfName_inv s t ht
      subst hsv
      cases t <;>
        simp only [componentFromDict, hr, ComponentType.name, Option.getD_some,
          Component.from_dict, DrawerUnit.from_dict, HangingSpace.from_dict,
          Shelf.from_dict, Overhead.from_dict, readBase, componentTypeOfName,
          Option.map_some', Option.some_inj] at h
      case FRAME =>
        cases h
        exact ⟨Or.inl rfl, trivial⟩
      case DIVIDER =>
        cases h
        exact ⟨Or.inr rfl, trivial⟩
      case DRAWER_UNIT =>
        cases h
        refine ⟨?_, drawerPostInit_stable _ _ _ _⟩
        unfold drawerPostInit
        split <;> exact rfl
      case HANGING_SPACE =>
        cases h
        exact ⟨rfl, trivial⟩
      case SHELF =>
        cases h
        exact ⟨rfl, trivial⟩
      case OVERHEAD =>
        cases h
        exact ⟨rfl, trivial⟩

theorem unitSystem_roundtrip (u : UnitSystem) : unitSystemOfName u.name = some u := by
  cases u <;> rfl

theorem metadata_roundtrip (now : String) (m : ProjectMetadata) :
    ProjectMetadata.from_dict now m.to_dict = m := rfl

theorem frame_roundtrip (f : WardrobeFrame) : WardrobeFrame.from_dict f.to_dict = f := rfl

/-- C1: for every `WardrobeProject p` (its components carrying the
class-consistent tag and post-init-stable drawer heights that every component
constructed through the code's factories and `from_dict` has, see
`componentFromDict_wellFormed`), deserializing its serialized record
reproduces `p` exactly field-for-field: same version, metadata, unit system,
frame, the same components in the same insertion order with the same ids and
variant-specific fields, and the same `zoom_level` and `scroll_position`. -/
theorem project_roundtrip (now : String) (p : WardrobeProject) (h : p.WellFormed) :
    WardrobeProject.from_dict now p.to_dict = some p := by
  simp only [WardrobeProject.to_dict, WardrobeProject.from_dict, Option.getD_some,
    mapM_componentFromDict_roundtrip p.components h, unitSystem_roundtrip,
    Option.some_bind, metadata_roundtrip, frame_roundtrip]
  rfl

theorem sampleProject_wf : sampleProject.WellFormed := by
  intro c hc
  simp only [sampleProject, List.mem_cons, List.not_mem_nil, or_false] at hc
  rcases hc with rfl | rfl | rfl | rfl | rfl
  · exact ⟨Or.inl rfl, trivial⟩
  · exact ⟨rfl, Or.inl (by decide)⟩
  · exact ⟨rfl, trivial⟩
  · exact ⟨rfl, trivial⟩
  · exact ⟨rfl, trivial⟩

/-- C1 witness: the round trip evaluated on a concrete five-component
project exercising every variant. -/
theorem project_roundtrip_witness :
    sampleProject.WellFormed ∧
      WardrobeProject.from_dict ("2026-01-03T00:00:00") sampleProject.to_dict =
        some sampleProject :=
  ⟨sampleProject_wf, project_roundtrip ("2026-01-03T00:00:00") sampleProject sampleProject_wf⟩

/-- C2 counterexample: a version-1.0 document containing one valid shelf
record and one record whose `component_type` is the unknown string `WIDGET`
fails the WHOLE load (`from_dict` raises `KeyError` inside
`ComponentType[...]`, so `load_project` returns `None`), contrary to the
claim that the entry degrades to the base `Component` shape while the rest
loads normally. -/
theorem unknown_type_fails_whole_load :
    WardrobeProject.from_dict ("t") widgetDoc = none ∧
    load_project ("t") widgetDoc = (none, "Missing required field") := by
  constructor <;> rfl

/-- C2 amended: a component record whose `component_type` discriminator is
not a `ComponentType` member name at all makes that entry deserialize to
`None` (`KeyError`) and thereby fails the whole load; the degrade-to-base
behaviour only occurs for discriminators that ARE `ComponentType` member
names outside the variant map, namely `FRAME` and `DIVIDER`, whose entries
come back as base `Component` records with the variant-specific fields
discarded. -/
theorem unknown_type_amended :
    (∀ r : ComponentRecord, ∀ s : String, r.component_type = some s →
        componentTypeOfName s = none → componentFromDict r = none) ∧
    (∀ now : String, ∀ d : ProjectRecord, ∀ comps : List ComponentRecord,
        ∀ r : ComponentRecord, d.components = some comps → r ∈ comps →
        componentFromDict r = none → WardrobeProject.from_dict now d = none) ∧
    (∀ r : ComponentRecord,
        r.component_type = some ("FRAME") ∨ r.component_type = some ("DIVIDER") →
        componentFromDict r = (readBase r).map Component.base) := by
  refine ⟨?_, ?_, ?_⟩
  · intro r s hs hct
    exact componentFromDict_none_of_unknown r s hs hct
  · intro now d comps r hd hr hn
    have hm := mapM_componentFromDict_none comps r hr hn
    simp only [WardrobeProject.from_dict, hd, Option.getD_some]
    rw [hm]
    rfl
  · intro r h
    rcases h with h | h <;> (simp only [componentFromDict, h, Option.getD_some]; rfl)

/-- C2 amended witness: evaluated on the `WIDGET` record, the two-entry
document, and a `DIVIDER` record carrying (discarded) drawer fields. -/
theorem unknown_type_amended_witness :
    componentFromDict widgetRecord = none ∧
    WardrobeProject.from_dict ("t") widgetDoc = none ∧
    componentFromDict dividerRecord = (readBase dividerRecord).map Component.base :=
  ⟨unknown_type_amended.1 widgetRecord ("WIDGET") rfl rfl,
   unknown_type_amended.2.1 ("t") widgetDoc [shelfRecord, widgetRecord] widgetRecord rfl
     (List.mem_cons_of_mem shelfRecord (List.mem_cons_self widgetRecord []))
     (unknown_type_amended.1 widgetRecord ("WIDGET") rfl rfl),
   unknown_type_amended.2.2 dividerRecord (Or.inr rfl)⟩

/-- C3: loading a document whose version field is not the string `1.0`
(a missing version reads as `unknown`) fails with the unsupported-version
result: no project is returned.  `load_project` is a pure function of the
parsed document and constructs a fresh project on success only; it takes no
in-memory project and mutates nothing. -/
theorem load_project_unsupported_version (now : String) (d : ProjectRecord)
    (h : d.version.getD ("unknown") ≠ "1.0") :
    load_project now d = (none, "Unsupported file version: " ++ d.version.getD ("unknown")) := by
  have hmem : ¬ (d.version.getD ("unknown") ∈ SUPPORTED_VERSIONS) := by
    simp [SUPPORTED_VERSIONS, h]
  simp only [load_project]
  rw [if_neg hmem]

/-- C3 witness: a concrete document with version `0.9`. -/
theorem load_project_unsupported_version_witness :
    load_project ("t") oldVersionDoc =
      (none, "Unsupported file version: " ++ oldVersionDoc.version.getD ("unknown")) :=
  load_project_unsupported_version ("t") oldVersionDoc (by decide)

/-- C4: `parse_dimension` trims and lowercases its input and recognizes the
suffixes `mm`, `cm`, `"` and `in`, treating suffixless input as millimetres:
`500` and `500mm` give `(500.0, true)`, `50cm` gives `(500.0, true)`, `20"`
and `20in` give `(508.0, true)`; `abc` gives `(0.0, false)`, and every input
whose numeric payload is malformed returns exactly `(0.0, false)`. -/
theorem parse_dimension_spec :
    parse_dimension ("500") = (500, true) ∧
    parse_dimension ("500mm") = (500, true) ∧
    parse_dimension ("50cm") = (500, true) ∧
    parse_dimension ("20\"") = (508, true) ∧
    parse_dimension ("20in") = (508, true) ∧
    parse_dimension ("abc") = (0, false) ∧
    ∀ s : String, (parse_dimension s).2 = false → parse_dimension s = (0, false) := by
  refine ⟨rfl, rfl, ?_, ?_, ?_, rfl, ?_⟩
  · show (cm_to_mm 50, true) = (500, true)
    norm_num [cm_to_mm, MM_PER_CM]
  · show (inches_to_mm 20, true) = (508, true)
    norm_num [inches_to_mm, MM_PER_INCH]
  · show (inches_to_mm 20, true) = (508, true)
    norm_num [inches_to_mm, MM_PER_INCH]
  · intro s hs
    rcases parse_dimension_shape s with ⟨v, hv⟩ | hv
    · rw [hv] at hs; cases hs
    · exact hv

/-- C4 witness: the malformed-payload clause applied to a concrete
malformed input. -/
theorem parse_dimension_spec_witness : parse_dimension ("x2") = (0, false) :=
  parse_dimension_spec.2.2.2.2.2.2 ("x2") (by decide)

/-- C5: `calculate_scale_to_fit` returns `1.0` whenever the content is
non-positive or the margin-reduced container is non-positive, and otherwise
returns `min((containerW − 2·margin)/contentW, (containerH − 2·margin)/contentH)`;
in particular `calculate_scale_to_fit 1000 500 200 200 10 = 0.18`. -/
theorem calculate_scale_to_fit_spec :
    (∀ cw ch tw th m : ℚ, cw ≤ 0 ∨ ch ≤ 0 ∨ tw - 2 * m ≤ 0 ∨ th - 2 * m ≤ 0 →
        calculate_scale_to_fit cw ch tw th m = 1) ∧
    (∀ cw ch tw th m : ℚ, 0 < cw → 0 < ch → 0 < tw - 2 * m → 0 < th - 2 * m →
        calculate_scale_to_fit cw ch tw th m =
          min ((tw - 2 * m) / cw) ((th - 2 * m) / ch)) ∧
    calculate_scale_to_fit 1000 500 200 200 10 = 18/100 := by
  refine ⟨?_, ?_, ?_⟩
  · intro cw ch tw th m hm
    simp only [calculate_scale_to_fit]
    rcases hm with h | h | h | h
    · rw [if_pos (Or.inl h)]
    · rw [if_pos (Or.inr h)]
    · by_cases h1 : cw ≤ 0 ∨ ch ≤ 0
      · rw [if_pos h1]
      · rw [if_neg h1, if_pos (Or.inl h)]
    · by_cases h1 : cw ≤ 0 ∨ ch ≤ 0
      · rw [if_pos h1]
      · rw [if_neg h1, if_pos (Or.inr h)]
  · intro cw ch tw th m h1 h2 h3 h4
    simp only [calculate_scale_to_fit]
    rw [if_neg (by rw [not_or]; exact ⟨not_le.mpr h1, not_le.mpr h2⟩),
      if_neg (by rw [not_or]; exact ⟨not_le.mpr h3, not_le.mpr h4⟩)]
  · simp only [calculate_scale_to_fit]
    norm_num [min_def]

/-- C5 witness: both clauses applied at concrete inputs. -/
theorem calculate_scale_to_fit_spec_witness :
    calculate_scale_to_fit 0 1 10 10 0 = 1 ∧
    calculate_scale_to_fit 10 20 100 100 0 =
      min ((100 - 2 * 0) / 10) ((100 - 2 * 0) / 20) :=
  ⟨calculate_scale_to_fit_spec.1 0 1 10 10 0 (Or.inl le_rfl),
   calculate_scale_to_fit_spec.2.1 10 20 100 100 0 (by norm_num) (by norm_num)
     (by norm_num) (by norm_num)⟩

/-- C6: every render surface computes its faux-depth offset as an instance of
the single reference function `depthOffset(depth, factor, cap) = min(depth·factor, cap)`:
the frame surface's offset equals `depthOffset` at factor `0.12` and cap `80`,
and every component item's offset equals `depthOffset` at factor `0.15` and
cap `80`. -/
theorem depth_offset_shared (depth : ℚ) :
    get_frame_depth_offset depth = depthOffset depth (12/100) 80 ∧
    get_depth_offset depth = depthOffset depth (15/100) 80 :=
  ⟨rfl, rfl⟩

/-- C7: `snap_to_grid` is idempotent for every value `v` and grid size
`g > 0`: snapping a snapped value is a no-op. -/
theorem snap_to_grid_idempotent (v g : ℚ) (hg : 0 < g) :
    snap_to_grid (snap_to_grid v g) g = snap_to_grid v g := by
  unfold snap_to_grid
  rw [if_neg (not_le.mpr hg), if_neg (not_le.mpr hg),
    mul_div_cancel_right₀ _ (ne_of_gt hg), pyRound_intCast]

/-- C7 witness: idempotence at `v = 7`, `g = 2`. -/
theorem snap_to_grid_idempotent_witness :
    snap_to_grid (snap_to_grid 7 2) 2 = snap_to_grid 7 2 :=
  snap_to_grid_idempotent 7 2 (by norm_num)

/-- C8: every `DrawerUnit` created through `DrawerUnit.create` with
`drawer_count ≥ 1` and no explicit `drawer_heights` gets a heights sequence
of length `drawer_count` whose every entry is `dimensions.height / drawer_count`,
so the heights sum to `dimensions.height`; the split is computed once at
creation by `__post_init__`. -/
theorem drawer_create_equal_split (fresh name : String) (w ht dp x y : ℚ)
    (count : ℤ) (style : String) (oid col lab nts : Option String) (lk : Bool)
    (hc : 1 ≤ count) :
    ((DrawerUnit.create fresh name w ht dp x y count none style oid col lab nts
        lk).drawer_heights.length : ℤ) = count ∧
    (∀ q ∈ (DrawerUnit.create fresh name w ht dp x y count none style oid col lab nts
        lk).drawer_heights, q = ht / count) ∧
    (DrawerUnit.create fresh name w ht dp x y count none style oid col lab nts
        lk).drawer_heights.sum = ht := by
  have hpos : (0 : ℤ) < count := by omega
  have hne : (count : ℚ) ≠ 0 := by exact_mod_cast (by omega : count ≠ 0)
  simp only [DrawerUnit.create, drawerPostInit, Option.getD_none]
  rw [if_pos (by simp [hpos])]
  simp only [Component.drawer_heights]
  refine ⟨?_, ?_, ?_⟩
  · simp only [List.length_replicate]
    omega
  · intro q hq
    exact List.eq_of_mem_replicate hq
  · rw [List.sum_replicate, nsmul_eq_mul,
      show ((count.toNat : ℚ)) = (count : ℚ) by exact_mod_cast Int.toNat_of_nonneg (by omega),
      mul_comm, div_mul_cancel₀ ht hne]

/-- C8 witness: the default split for a 3-drawer unit of height 800. -/
theorem drawer_create_equal_split_witness :
    ((DrawerUnit.create ("u") "d" 600 800 500 0 0 3 none ("bar") none none none none
        false).drawer_heights.length : ℤ) = 3 ∧
    (∀ q ∈ (DrawerUnit.create ("u") "d" 600 800 500 0 0 3 none ("bar") none none none none
        false).drawer_heights, q = 800 / 3) ∧
    (DrawerUnit.create ("u") "d" 600 800 500 0 0 3 none ("bar") none none none none
        false).drawer_heights.sum = 800 := by
  have h := drawer_create_equal_split ("u") "d" 600 800 500 0 0 3 ("bar") none none none
    none false (by norm_num)
  simpa using h

/-- C9 counterexample: two base components with the SAME id but different
names are NOT equal under the dataclass-generated `==`, so equality is not
determined by id alone as the claim states. -/
theorem component_eq_not_by_id :
    Component.id c9Left = Component.id c9Right ∧ componentEq c9Left c9Right = false := by
  constructor <;> rfl

/-- C9 amended: component equality is dataclass structural equality over the
class and ALL fields (base fields plus variant-specific fields), i.e. Python
`a == b` holds exactly when `a` and `b` are equal as whole records; id
equality is necessary but not sufficient. -/
theorem componentEq_iff_structural (a b : Component) : componentEq a b = true ↔ a = b := by
  cases a <;> cases b <;>
    simp [componentEq, baseFieldsEq, Bool.and_eq_true, decide_eq_true_eq,
      ComponentBase.ext_iff, and_assoc]

/-- C10: for every project `p` and every id not carried by any component of
`p`, `remove_component` returns not-found (`None`) and leaves `p` entirely
unchanged — same components in the same order, and `metadata.modified_date`
is not updated. -/
theorem remove_component_not_found (now : String) (p : WardrobeProject)
    (component_id : String) (h : ∀ c ∈ p.components, c.id ≠ component_id) :
    p.remove_component now component_id = (none, p) := by
  simp only [WardrobeProject.remove_component,
    removeFirstById_none component_id p.components h]

/-- C10 witness: removing a missing id from the concrete sample project. -/
theorem remove_component_not_found_witness :
    sampleProject.remove_component ("t") "missing-id" = (none, sampleProject) :=
  remove_component_not_found ("t") sampleProject ("missing-id") (by decide)

end Wardrobe
